import Mathlib

/-!
Verification of the task-identity resolution and CRUD-with-isolation core of
the two-phase todo application.

Phase 1 (single-tenant, in-memory): `src/phase_1/src/models.py` and
`src/phase_1/src/storage.py`.  The Python dict backing the store is embedded
as an association list in insertion order (Python dicts preserve insertion
order and have unique keys); `datetime.now()` timestamps are embedded as an
explicit `Nat` clock value passed into each mutating call; exceptions are
embedded as `Except`.

Phase 2 (multi-tenant, database-backed): `src/phase_2/backend/src/services/task_service.py`,
`src/phase_2/backend/src/api/v1/tasks.py`, `src/phase_2/backend/src/middleware/jwt_verification.py`.
The `tasks` table is embedded as a list of rows; SQLAlchemy's
`scalar_one_or_none` and the route-level commit/rollback discipline are
embedded explicitly.
-/

namespace TodoSpec

/-- Embeds Python `str.strip()`: drop leading and trailing whitespace
(space, tab, carriage return, newline — the whitespace characters exercised
by this code base).  Defined structurally on the character list so that it
evaluates by kernel reduction. -/
def pyStrip (s : String) : String :=
  String.mk (((s.data.dropWhile Char.isWhitespace).reverse.dropWhile
    Char.isWhitespace).reverse)

/-- Embeds Python `a.startswith(b)`: `b` is a prefix of `a`.  Defined
structurally on the character lists so that it evaluates by kernel reduction
(the built-in `String.startsWith` does not). -/
def pyStartsWith (a b : String) : Bool :=
  b.data.isPrefixOf a.data

/-- Embeds Python slicing `s[n:]` on strings: drop the first `n` characters.
Defined structurally so that it evaluates by kernel reduction. -/
def dropChars (s : String) (n : Nat) : String :=
  String.mk (s.data.drop n)

/-- Characterisation of `pyStartsWith` as the list-prefix relation. -/
theorem pyStartsWith_iff {a b : String} :
    pyStartsWith a b = true ↔ b.data <+: a.data := by
  simp [pyStartsWith, List.isPrefixOf_iff_prefix]

/-- Every string starts with itself. -/
theorem pyStartsWith_self (a : String) : pyStartsWith a a = true :=
  pyStartsWith_iff.mpr (List.prefix_refl _)

namespace Phase1

/-- The task record of `src/phase_1/src/models.py` (`@dataclass class Task`).
`created_at`/`updated_at` are `datetime` values in the source, embedded here
as `Nat` clock readings. -/
structure Task where
  title : String
  description : String
  id : String
  completed : Bool
  created_at : Nat
  updated_at : Nat
deriving DecidableEq, Repr

/-- Embeds `Task(title=..., description=...)` followed by `__post_init__`
(models.py lines 34-46): raises `ValueError` when the title is empty or
whitespace-only (`not self.title or not self.title.strip()`), otherwise
stores the title stripped of leading/trailing whitespace.  `id` is the
`uuid4` output and `now` the `datetime.now()` reading at construction time,
both passed in explicitly. -/
def mkTask (title description id : String) (now : Nat) : Except String Task :=
  if title = "" ∨ pyStrip title = "" then
    Except.error "Task title cannot be empty"
  else
    Except.ok { title := pyStrip title, description := description, id := id,
                completed := false, created_at := now, updated_at := now }

/-- Embeds `Task.mark_complete` (models.py lines 48-55). -/
def Task.mark_complete (t : Task) (now : Nat) : Task :=
  { t with completed := true, updated_at := now }

/-- Embeds `Task.mark_incomplete` (models.py lines 57-64). -/
def Task.mark_incomplete (t : Task) (now : Nat) : Task :=
  { t with completed := false, updated_at := now }

/-- Embeds `Task.toggle_completion` (models.py lines 66-75). -/
def Task.toggle_completion (t : Task) (now : Nat) : Task :=
  if t.completed then t.mark_incomplete now else t.mark_complete now

/-- Embeds `Task.update` (models.py lines 77-99).  The `ValueError` for an
empty/whitespace title is raised before any field assignment, so on error the
task is unchanged; on success the title (if supplied) is stored stripped, the
description (if supplied) is stored verbatim, and `updated_at` is refreshed. -/
def Task.update (t : Task) (title description : Option String) (now : Nat) :
    Except String Task :=
  match title with
  | some s =>
    if s = "" ∨ pyStrip s = "" then Except.error "Task title cannot be empty"
    else
      let t1 := { t with title := pyStrip s }
      let t2 := match description with
        | some d => { t1 with description := d }
        | none => t1
      Except.ok { t2 with updated_at := now }
  | none =>
    let t2 := match description with
      | some d => { t with description := d }
      | none => t
    Except.ok { t2 with updated_at := now }

/-- The dict `self._tasks` of `src/phase_1/src/storage.py`, embedded as an
association list in insertion order with unique keys. -/
abbrev Store := List (String × Task)

/-- Embeds Python dict assignment `self._tasks[k] = v` (and in-place mutation
of a stored `Task` object): overwrite in place when the key is present,
append otherwise. -/
def dictInsert (st : Store) (k : String) (v : Task) : Store :=
  if st.any (fun p => p.1 == k) then
    st.map (fun p => if p.1 == k then (k, v) else p)
  else
    st ++ [(k, v)]

/-- Embeds `TaskStorage.add_task` (storage.py lines 28-48): constructs a
`Task` (which validates the title) and inserts it under its fresh id. -/
def add_task (st : Store) (title description id : String) (now : Nat) :
    Except String (Task × Store) :=
  match mkTask title description id now with
  | Except.error e => Except.error e
  | Except.ok t => Except.ok (t, dictInsert st t.id t)

/-- Embeds `TaskStorage._find_task_id` (storage.py lines 50-85):
empty/whitespace input resolves to `none`; an exact key match wins before any
prefix scan; otherwise the ids starting with the input are collected, with a
unique match returned, zero matches yielding `none`, and two or more matches
raising the ambiguity `ValueError` (the source tests `len(matches) == 1`,
then `> 1`, else `None`, which the list-shape match below reproduces). -/
def find_task_id (st : Store) (s : String) : Except String (Option String) :=
  if s = "" ∨ pyStrip s = "" then Except.ok none
  else if st.any (fun p => p.1 == s) then Except.ok (some s)
  else
    match (st.map Prod.fst).filter (fun id => pyStartsWith id s) with
    | [m] => Except.ok (some m)
    | [] => Except.ok none
    | _ => Except.error ("Ambiguous task ID " ++ s ++ ": matches multiple tasks")

/-- Embeds `TaskStorage.get_task` (storage.py lines 87-99). -/
def get_task (st : Store) (s : String) : Except String (Option Task) :=
  match find_task_id st s with
  | Except.error e => Except.error e
  | Except.ok none => Except.ok none
  | Except.ok (some fid) => Except.ok (st.lookup fid)

/-- Embeds `TaskStorage.get_all_tasks` (storage.py lines 101-110). -/
def get_all_tasks (st : Store) : List Task :=
  st.map Prod.snd

/-- Embeds `TaskStorage.update_task` (storage.py lines 112-142).  The second
component is the store after the call: unchanged when resolution fails or
`Task.update` raises (the raise precedes every field assignment), updated in
place on success. -/
def update_task (st : Store) (tid : String) (title description : Option String)
    (now : Nat) : Except String (Option Task) × Store :=
  match find_task_id st tid with
  | Except.error e => (Except.error e, st)
  | Except.ok none => (Except.ok none, st)
  | Except.ok (some fid) =>
    match st.lookup fid with
    | none => (Except.ok none, st)
    | some t =>
      match t.update title description now with
      | Except.error e => (Except.error e, st)
      | Except.ok t2 => (Except.ok (some t2), dictInsert st fid t2)

/-- Embeds `TaskStorage.mark_complete` (storage.py lines 144-164), which
toggles the resolved task in place. -/
def mark_complete (st : Store) (tid : String) (now : Nat) :
    Except String (Option Task) × Store :=
  match find_task_id st tid with
  | Except.error e => (Except.error e, st)
  | Except.ok none => (Except.ok none, st)
  | Except.ok (some fid) =>
    match st.lookup fid with
    | none => (Except.ok none, st)
    | some t =>
      let t2 := t.toggle_completion now
      (Except.ok (some t2), dictInsert st fid t2)

/-- Embeds `TaskStorage.delete_task` (storage.py lines 166-184): resolves the
id (propagating the ambiguity error), returns `false` leaving the store
unchanged when nothing resolves, otherwise removes the resolved key
(`del self._tasks[full_id]`) and returns `true`. -/
def delete_task (st : Store) (tid : String) : Except String Bool × Store :=
  match find_task_id st tid with
  | Except.error e => (Except.error e, st)
  | Except.ok none => (Except.ok false, st)
  | Except.ok (some fid) => (Except.ok true, st.filter (fun p => p.1 != fid))

/-- One REPL-level store operation, for reasoning about sequences of calls:
a `create` carries its caller-supplied title/description together with the
`uuid4` output and clock reading of that call. -/
inductive Op where
  | create (title description id : String) (now : Nat)
  | del (tid : String)

/-- The ids generated for the `create` operations of a sequence (the `uuid4`
outputs handed to `add_task`). -/
def createIds : List Op → List String
  | [] => []
  | Op.create _ _ id _ :: ops => id :: createIds ops
  | Op.del _ :: ops => createIds ops

/-- Runs a sequence of store operations, collecting the ids of the tasks
returned by the successful `create` calls (a failed validation or a delete
contributes nothing; exceptions are caught by the REPL loop, which then
continues with the store as the call left it). -/
def runOps (st : Store) : List Op → Store × List String
  | [] => (st, [])
  | Op.create title description id now :: ops =>
    match add_task st title description id now with
    | Except.error _ => runOps st ops
    | Except.ok (t, st2) =>
      let r := runOps st2 ops
      (r.1, t.id :: r.2)
  | Op.del tid :: ops =>
    let r := delete_task st tid
    runOps r.2 ops

end Phase1

namespace Phase2

/-- Embeds `TaskStatus` of `src/phase_2/backend/src/constants.py` (lines
35-41), a string-valued enumeration. -/
inductive TaskStatus where
  | pending
  | inProgress
  | completed
  | archived
deriving DecidableEq, Repr

/-- The string value of each `TaskStatus` member. -/
def TaskStatus.value : TaskStatus → String
  | pending => "Pending"
  | inProgress => "In Progress"
  | completed => "Completed"
  | archived => "Archived"

/-- The task row of `src/phase_2/backend/src/models/task.py`: primary key
`id`, owner foreign key `user_id`, and the payload fields.  Timestamps are
embedded as `Nat` readings of `utc_now()`. -/
structure Task where
  id : String
  user_id : String
  title : String
  description : Option String
  status : TaskStatus
  created_at : Nat
  updated_at : Nat
deriving DecidableEq, Repr

/-- The `TaskUpdate` request schema of `src/phase_2/backend/src/schemas/task.py`
(lines 36-55): every field optional. -/
structure TaskUpdate where
  title : Option String
  description : Option String
  status : Option TaskStatus
deriving DecidableEq, Repr

/-- The `tasks` table, embedded as its list of rows. -/
abbrev Db := List Task

/-- Embeds SQLAlchemy's `Result.scalar_one_or_none` on the rows a query
returned: `none` for no row, the row itself for exactly one, and the
`MultipleResultsFound` exception for several. -/
def scalar_one_or_none (rows : List Task) : Except String (Option Task) :=
  match rows with
  | [] => Except.ok none
  | [t] => Except.ok (some t)
  | _ => Except.error "MultipleResultsFound"

/-- The rows produced by
`select(Task).where(Task.id == task_id, Task.user_id == user_id)`, the
owner-scoped lookup every phase-2 read/mutation path starts from
(task_service.py lines 137, 160, 205). -/
def select_by_id_and_user (db : Db) (task_id user_id : String) : List Task :=
  db.filter (fun t => t.id == task_id && t.user_id == user_id)

/-- Embeds `TaskService.create_task` (task_service.py lines 25-70): rejects a
title that is falsy or outside 1-255 characters, a truthy description longer
than 2000 characters, and a status outside the enumeration; otherwise builds
the row with the fresh `uuid4_str()` id and `utc_now()` timestamps (both
passed in explicitly). -/
def create_task (user_id title : String) (description : Option String)
    (status : TaskStatus) (newId : String) (now : Nat) : Except String Task :=
  if title = "" ∨ title.length < 1 ∨ title.length > 255 then
    Except.error "Title must be 1-255 characters"
  else if description.getD "" ≠ "" ∧ (description.getD "").length > 2000 then
    Except.error "Description cannot exceed 2000 characters"
  else if status ∉ [TaskStatus.pending, TaskStatus.inProgress,
                    TaskStatus.completed, TaskStatus.archived] then
    Except.error "Invalid status"
  else
    Except.ok { id := newId, user_id := user_id, title := title,
                description := description, status := status,
                created_at := now, updated_at := now }

/-- Embeds `POST /api/v1/tasks` (tasks.py lines 37-77): on service success the
commit persists the new row; on `ValueError` the handler rolls back and maps
the error to HTTP 400, leaving the table unchanged. -/
def create_task_route (db : Db) (user_id title : String)
    (description : Option String) (status : TaskStatus) (newId : String)
    (now : Nat) : Except (Nat × String) Task × Db :=
  match create_task user_id title description status newId now with
  | Except.error e => (Except.error (400, e), db)
  | Except.ok t => (Except.ok t, db ++ [t])

/-- Embeds `TaskService.get_task_by_id` (task_service.py lines 122-140): the
owner-scoped query followed by `scalar_one_or_none`. -/
def get_task_by_id (db : Db) (user_id task_id : String) :
    Except String (Option Task) :=
  scalar_one_or_none (select_by_id_and_user db task_id user_id)

/-- Embeds `GET /api/v1/tasks/\x7btask_id\x7d` (tasks.py lines 163-199): a
`none` service result is mapped to HTTP 404 "Task not found"; an unexpected
exception to HTTP 500. -/
def get_task_route (db : Db) (user_id task_id : String) :
    Except (Nat × String) Task :=
  match get_task_by_id db user_id task_id with
  | Except.error _ => Except.error (500, "Failed to retrieve task")
  | Except.ok none => Except.error (404, "Task not found")
  | Except.ok (some t) => Except.ok t

/-- Embeds the field-update block of `TaskService.update_task`
(task_service.py lines 168-185), applied to the row the owner-scoped query
found: each supplied field is validated and assigned in turn (title, then
description, then status), and `updated_at` is always refreshed at the end.
A later field's `ValueError` is raised after an earlier field was already
assigned on the ORM object; the route-level rollback (below) discards such
partial assignments. -/
def apply_update_fields (task : Task) (data : TaskUpdate) (now : Nat) :
    Except String Task :=
  match
    (match data.title with
     | some s =>
       if s = "" ∨ s.length < 1 ∨ s.length > 255 then
         Except.error "Title must be 1-255 characters"
       else Except.ok { task with title := s }
     | none => Except.ok task) with
  | Except.error e => Except.error e
  | Except.ok t1 =>
    match
      (match data.description with
       | some d =>
         if d.length > 2000 then
           Except.error "Description cannot exceed 2000 characters"
         else Except.ok { t1 with description := some d }
       | none => Except.ok t1) with
    | Except.error e => Except.error e
    | Except.ok t2 =>
      if data.status.getD TaskStatus.pending ∉
          [TaskStatus.pending, TaskStatus.inProgress,
           TaskStatus.completed, TaskStatus.archived] then
        Except.error "Invalid status"
      else
        let t3 := match data.status with
          | some s => { t2 with status := s }
          | none => t2
        Except.ok { t3 with updated_at := now }

/-- Embeds `PATCH /api/v1/tasks/\x7btask_id\x7d` (tasks.py lines 221-266
composed with `TaskService.update_task`, task_service.py lines 142-188): the
owner-scoped lookup treats a non-owned or missing row as HTTP 404; a field
`ValueError` is mapped to HTTP 400 and the handler rolls the session back, so
the stored rows — the second component — are exactly the pre-call rows (no
partial assignment is ever flushed before the error); on success the commit
persists the updated row. -/
def update_task_route (db : Db) (user_id task_id : String) (data : TaskUpdate)
    (now : Nat) : Except (Nat × String) Task × Db :=
  match scalar_one_or_none (select_by_id_and_user db task_id user_id) with
  | Except.error _ => (Except.error (500, "Failed to update task"), db)
  | Except.ok none => (Except.error (404, "Task not found"), db)
  | Except.ok (some task) =>
    match apply_update_fields task data now with
    | Except.error e => (Except.error (400, e), db)
    | Except.ok t2 =>
      (Except.ok t2, db.map (fun t => if t.id == task.id then t2 else t))

/-- Embeds `TaskService.delete_task` (task_service.py lines 190-215): the
owner-scoped lookup; `false` with the table unchanged when nothing is found,
otherwise the row is deleted and `true` returned. -/
def delete_task (db : Db) (user_id task_id : String) :
    Except String (Bool × Db) :=
  match scalar_one_or_none (select_by_id_and_user db task_id user_id) with
  | Except.error e => Except.error e
  | Except.ok none => Except.ok (false, db)
  | Except.ok (some task) =>
    Except.ok (true, db.filter (fun t => t.id != task.id))

/-- Embeds `DELETE /api/v1/tasks/\x7btask_id\x7d` (tasks.py lines 286-321): a
`false` service result is mapped to HTTP 404 "Task not found" with the table
unchanged; on success the commit persists the removal. -/
def delete_task_route (db : Db) (user_id task_id : String) :
    Except (Nat × String) Unit × Db :=
  match delete_task db user_id task_id with
  | Except.error _ => (Except.error (500, "Failed to delete task"), db)
  | Except.ok (false, _) => (Except.error (404, "Task not found"), db)
  | Except.ok (true, db2) => (Except.ok (), db2)

/-- Insertion step for the `order_by(desc(Task.created_at))` embedding. -/
def insertDesc (t : Task) : List Task → List Task
  | [] => [t]
  | u :: us =>
    if u.created_at ≤ t.created_at then t :: u :: us else u :: insertDesc t us

/-- Embeds `order_by(desc(Task.created_at))`: sort by `created_at`
descending. -/
def sortByCreatedDesc : List Task → List Task
  | [] => []
  | t :: ts => insertDesc t (sortByCreatedDesc ts)

/-- Embeds `TaskService.get_user_tasks` (task_service.py lines 72-120): rows
filtered by `user_id`, optionally by a truthy status string (an unknown
status string raises `ValueError`), counted before pagination, then ordered
by `created_at` descending with `offset`/`limit` applied. -/
def get_user_tasks (db : Db) (user_id : String) (limit offset : Nat)
    (status : Option String) : Except String (List Task × Nat) :=
  if status.getD "" ≠ "" then
    if status.getD "" ∉ [TaskStatus.pending.value, TaskStatus.inProgress.value,
        TaskStatus.completed.value, TaskStatus.archived.value] then
      Except.error ("Invalid status filter: " ++ status.getD "")
    else
      Except.ok
        (((sortByCreatedDesc (db.filter (fun t =>
            t.user_id == user_id && t.status.value == status.getD ""))).drop
              offset).take limit,
         (db.filter (fun t =>
            t.user_id == user_id && t.status.value == status.getD "")).length)
  else
    Except.ok
      (((sortByCreatedDesc (db.filter (fun t =>
          t.user_id == user_id))).drop offset).take limit,
       (db.filter (fun t => t.user_id == user_id)).length)

namespace Middleware

/-- Embeds `PUBLIC_ENDPOINTS` of `src/phase_2/backend/src/constants.py` (lines
61-72). -/
def publicEndpoints : List String :=
  ["/health", "/api/v1/auth/register", "/api/v1/auth/login",
   "/api/v1/auth/refresh", "/api/v1/auth/forgot-password",
   "/api/v1/auth/reset-password", "/docs", "/redoc", "/openapi.json"]

/-- Outcome of `jose.jwt.decode` on a token, abstracting the cryptography:
`ok` carries the decoded claims, `jwtError` stands for any `JWTError`
(invalid signature, malformed token, expiry), `otherError` for any other
exception raised during verification. -/
inductive VerifyOutcome where
  | ok (payload : List (String × String))
  | jwtError (msg : String)
  | otherError (msg : String)
deriving DecidableEq, Repr

/-- The slice of an HTTP request the middleware inspects: the path and the
value of `request.headers.get("Authorization", "")`. -/
structure Request where
  path : String
  authHeader : String
deriving DecidableEq, Repr

/-- What the middleware does with a request: forward it to the next handler
(with the verified user id attached on non-public paths), or reject it with
an HTTP status and a JSON `detail` string. -/
inductive Outcome where
  | forwarded (user_id : Option String)
  | rejected (status : Nat) (detail : String)
deriving DecidableEq, Repr

/-- Embeds `JWTVerificationMiddleware.dispatch`
(`src/phase_2/backend/src/middleware/jwt_verification.py` lines 41-111):
public paths skip verification; a header not starting with `"Bearer "` is
rejected 401; otherwise the token (header minus the 7-character bearer
marker, stripped) is verified, a `JWTError` or other exception is rejected
401, a missing or falsy `sub` claim is rejected 401, and a verified request
is forwarded with the extracted user id. -/
def dispatch (verify : String → VerifyOutcome) (req : Request) : Outcome :=
  if req.path ∈ publicEndpoints then Outcome.forwarded none
  else if pyStartsWith req.authHeader "Bearer " = false then
    Outcome.rejected 401 "Invalid or missing Authorization header"
  else
    match verify (pyStrip (dropChars req.authHeader 7)) with
    | VerifyOutcome.jwtError _ => Outcome.rejected 401 "Invalid or expired token"
    | VerifyOutcome.otherError _ => Outcome.rejected 401 "Authentication failed"
    | VerifyOutcome.ok payload =>
      match payload.lookup "sub" with
      | none => Outcome.rejected 401 "Invalid token claims"
      | some uid =>
        if uid = "" then Outcome.rejected 401 "Invalid token claims"
        else Outcome.forwarded (some uid)

end Middleware

end Phase2

/-! ### Helper lemmas -/

/-- Looking a key up in an association list with duplicate-free keys finds the
unique pair carrying that key. -/
theorem lookup_of_mem {α β : Type} [DecidableEq α] {st : List (α × β)} {k : α}
    {v : β} (hn : (st.map Prod.fst).Nodup) (hm : (k, v) ∈ st) :
    st.lookup k = some v := by
  induction st with
  | nil => cases hm
  | cons p st ih =>
    obtain ⟨k0, v0⟩ := p
    simp only [List.map_cons, List.nodup_cons, List.mem_map] at hn
    rcases List.mem_cons.mp hm with h | h
    · obtain ⟨rfl, rfl⟩ := Prod.mk.injEq .. ▸ h
      simp [List.lookup]
    · have hk : k ≠ k0 := by
        rintro rfl
        exact hn.1 ⟨(k, v), h, rfl⟩
      have hbeq : (k == k0) = false := beq_eq_false_iff_ne.mpr hk
      simp [List.lookup, hbeq, ih hn.2 h]

/-- A filter that accepts exactly one element of a duplicate-free list
returns that element alone. -/
theorem filter_eq_single {α : Type} [DecidableEq α] {l : List α} {x : α}
    {p : α → Bool} (hn : l.Nodup) (hx : x ∈ l) (hpx : p x = true)
    (hother : ∀ y ∈ l, y ≠ x → p y = false) :
    l.filter p = [x] := by
  induction l with
  | nil => cases hx
  | cons a l ih =>
    rcases List.mem_cons.mp hx with rfl | h
    · have hrest : l.filter p = [] := by
        apply List.filter_eq_nil_iff.mpr
        intro y hy
        have : y ≠ x := fun h => ((List.nodup_cons.mp hn).1 (h ▸ hy)).elim
        simp [hother y (List.mem_cons_of_mem _ hy) this]
      simp [List.filter_cons, hpx, hrest]
    · have ha : p a = false := by
        apply hother a (List.mem_cons_self a l)
        rintro rfl
        exact (List.nodup_cons.mp hn).1 h
      have hrec := ih (List.nodup_cons.mp hn).2 h
        (fun y hy hyx => hother y (List.mem_cons_of_mem _ hy) hyx)
      simp [List.filter_cons, ha, hrec]

/-- The empty string trims to itself. -/
theorem pyStrip_empty : pyStrip "" = "" := rfl

/-- A string of length zero is the empty string. -/
theorem string_length_zero {s : String} (h : s.length = 0) : s = "" := by
  cases s with
  | mk data =>
    cases data with
    | nil => rfl
    | cons c cs => simp [String.length] at h

/-- Every `TaskStatus` member lies in the enumeration list the phase-2
validation code checks against, so that check never fires on a well-typed
status. -/
theorem status_mem (s : Phase2.TaskStatus) :
    s ∈ [Phase2.TaskStatus.pending, Phase2.TaskStatus.inProgress,
         Phase2.TaskStatus.completed, Phase2.TaskStatus.archived] := by
  cases s <;> simp

/-- A concrete phase-1 task used by the witness theorems. -/
def sampleT1 : Phase1.Task :=
  { title := "Buy groceries", description := "d", id := "aaaa",
    completed := false, created_at := 0, updated_at := 0 }

/-- The task `sampleT1` after `update(title="New")` at clock reading 5. -/
def sampleT1upd : Phase1.Task :=
  { title := "New", description := "d", id := "aaaa",
    completed := false, created_at := 0, updated_at := 5 }

/-- A concrete phase-1 task carrying a given id, used by the witness
theorems. -/
def mkT (id : String) : Phase1.Task :=
  { title := "t", description := "", id := id, completed := false,
    created_at := 0, updated_at := 0 }

/-- A concrete two-task store whose ids share the prefix "aa". -/
def storeA : Phase1.Store :=
  [("aaaa1111", mkT "aaaa1111"), ("aaab2222", mkT "aaab2222")]

/-- A concrete store in which the id "ab" is simultaneously a proper prefix
of the two other stored ids. -/
def storeB : Phase1.Store :=
  [("ab", mkT "ab"), ("abc1", mkT "abc1"), ("abd2", mkT "abd2")]

/-- A concrete phase-2 task row used by the witness theorems. -/
def sampleP2 : Phase2.Task :=
  { id := "bbbb", user_id := "u1", title := "Old", description := none,
    status := Phase2.TaskStatus.pending, created_at := 0, updated_at := 0 }

/-- The row `sampleP2` after an update supplying only `status := completed` at clock
reading 7. -/
def sampleP2upd : Phase2.Task :=
  { id := "bbbb", user_id := "u1", title := "Old", description := none,
    status := Phase2.TaskStatus.completed, created_at := 0, updated_at := 7 }

namespace Phase1

/-- With a nonempty stripped input, `find_task_id` skips the empty-input
branch; an exact key match then resolves to the input itself. -/
theorem find_task_id_exact {st : Store} {s : String} {t : Task}
    (hs : pyStrip s ≠ "") (hm : (s, t) ∈ st) :
    find_task_id st s = Except.ok (some s) := by
  have hne : ¬(s = "" ∨ pyStrip s = "") := by
    rintro (rfl | h)
    · exact hs pyStrip_empty
    · exact hs h
  have hany : st.any (fun p => p.1 == s) = true := by
    simp only [List.any_eq_true]
    exact ⟨(s, t), hm, by simp⟩
  simp [find_task_id, hne, hany]

/-- With a nonempty stripped input that matches no stored key exactly,
`find_task_id` falls through to the prefix scan. -/
theorem find_task_id_scan {st : Store} {s : String}
    (hs : pyStrip s ≠ "") (hnk : ∀ p ∈ st, p.1 ≠ s) :
    find_task_id st s =
      match (st.map Prod.fst).filter (fun id => pyStartsWith id s) with
      | [m] => Except.ok (some m)
      | [] => Except.ok none
      | _ => Except.error ("Ambiguous task ID " ++ s ++ ": matches multiple tasks") := by
  have hne : ¬(s = "" ∨ pyStrip s = "") := by
    rintro (rfl | h)
    · exact hs pyStrip_empty
    · exact hs h
  have hany : st.any (fun p => p.1 == s) = false := by
    simp only [List.any_eq_false]
    intro p hp
    simp [hnk p hp]
  simp [find_task_id, hne, hany]

/-- When exactly one stored id starts with the input (and the input is no
stored id itself, except possibly that very id), `find_task_id` resolves to
that id. -/
theorem find_task_id_unique {st : Store} {s X : String} {t : Task}
    (hn : (st.map Prod.fst).Nodup) (hs : pyStrip s ≠ "")
    (hm : (X, t) ∈ st) (hpX : pyStartsWith X s = true)
    (hother : ∀ p ∈ st, p.1 ≠ X → pyStartsWith p.1 s = false) :
    find_task_id st s = Except.ok (some X) := by
  by_cases hsX : s = X
  · subst hsX
    exact find_task_id_exact hs hm
  · have hnk : ∀ p ∈ st, p.1 ≠ s := by
      intro p hp hps
      by_cases hpx : p.1 = X
      · exact hsX (hps.symm.trans hpx)
      · have := hother p hp hpx
        rw [hps, pyStartsWith_self s] at this
        cases this
    have hfilter :
        (st.map Prod.fst).filter (fun id => pyStartsWith id s) = [X] := by
      apply filter_eq_single hn (List.mem_map.mpr ⟨(X, t), hm, rfl⟩) hpX
      intro y hy hyX
      obtain ⟨p, hp, rfl⟩ := List.mem_map.mp hy
      exact hother p hp hyX
    rw [find_task_id_scan hs hnk, hfilter]

/-- Assigning to a key already present overwrites in place. -/
theorem dictInsert_of_mem {st : Store} {k : String} {t v : Task}
    (hm : (k, t) ∈ st) :
    dictInsert st k v = st.map (fun p => if p.1 == k then (k, v) else p) := by
  have hany : st.any (fun p => p.1 == k) = true :=
    List.any_eq_true.mpr ⟨(k, t), hm, by simp⟩
  simp [dictInsert, hany]

/-- Overwriting a key in place preserves the key sequence. -/
theorem keys_map_overwrite {st : Store} {k : String} {v : Task} :
    (st.map (fun p => if p.1 == k then (k, v) else p)).map Prod.fst =
      st.map Prod.fst := by
  rw [List.map_map]
  apply List.map_congr_left
  intro p _
  by_cases h : p.1 = k
  · simp [h]
  · simp [h]

/-- The overwritten pair is a member of the overwritten store. -/
theorem mem_map_overwrite {st : Store} {k : String} {t v : Task}
    (hm : (k, t) ∈ st) :
    (k, v) ∈ st.map (fun p => if p.1 == k then (k, v) else p) :=
  List.mem_map.mpr ⟨(k, t), hm, by simp⟩

/-- Resolving a stored task's exact id, `mark_complete` toggles it in
place. -/
theorem mark_complete_spec {st : Store} {X : String} {t : Task}
    (hn : (st.map Prod.fst).Nodup) (hm : (X, t) ∈ st) (hs : pyStrip X ≠ "")
    (now : Nat) :
    mark_complete st X now =
      (Except.ok (some (t.toggle_completion now)),
       dictInsert st X (t.toggle_completion now)) := by
  have hf := find_task_id_exact hs hm
  have hl := lookup_of_mem hn hm
  simp [mark_complete, hf, hl]

end Phase1

namespace Phase2

/-- With duplicate-free ids, the owner-scoped query for a stored row's id
and owner returns exactly that row. -/
theorem select_self {db : Db} {t : Task} (hn : (db.map Task.id).Nodup)
    (hm : t ∈ db) : select_by_id_and_user db t.id t.user_id = [t] := by
  apply filter_eq_single (List.Nodup.of_map _ hn) hm (by simp)
  intro r hr hrt
  by_cases hid : r.id = t.id
  · exact absurd (List.inj_on_of_nodup_map hn hr hm hid) hrt
  · simp [hid]

/-- A query for an id no stored row carries returns no rows. -/
theorem select_nil_of_ne {db : Db} {tid u : String}
    (h : ∀ r ∈ db, r.id ≠ tid) : select_by_id_and_user db tid u = [] := by
  apply List.filter_eq_nil_iff.mpr
  intro r hr
  simp [h r hr]

/-- With duplicate-free ids, the owner-scoped query for a stored row's id
with a different owner returns no rows. -/
theorem select_nil_of_owner {db : Db} {t : Task} {u : String}
    (hn : (db.map Task.id).Nodup) (hm : t ∈ db) (hu : t.user_id ≠ u) :
    select_by_id_and_user db t.id u = [] := by
  apply List.filter_eq_nil_iff.mpr
  intro r hr
  by_cases hid : r.id = t.id
  · have hrt : r = t := List.inj_on_of_nodup_map hn hr hm hid
    subst hrt
    simp [hu]
  · simp [hid]

/-- Membership in `insertDesc` is membership in the inserted element or the
list. -/
theorem mem_insertDesc {x t : Task} {l : List Task} :
    x ∈ insertDesc t l ↔ x = t ∨ x ∈ l := by
  induction l with
  | nil => simp [insertDesc]
  | cons u us ih =>
    by_cases h : u.created_at ≤ t.created_at
    · simp [insertDesc, h]
    · simp [insertDesc, h, ih]
      tauto

/-- Sorting by `created_at` descending neither adds nor removes rows. -/
theorem mem_sortDesc {x : Task} {l : List Task} :
    x ∈ sortByCreatedDesc l ↔ x ∈ l := by
  induction l with
  | nil => simp [sortByCreatedDesc]
  | cons t ts ih => simp [sortByCreatedDesc, mem_insertDesc, ih]

/-- Every row a successful `get_user_tasks` call returns belongs to the
requesting user. -/
theorem get_user_tasks_owner {db : Db} {u : String} {limit offset : Nat}
    {status : Option String} {res : List Task × Nat}
    (h : get_user_tasks db u limit offset status = Except.ok res) :
    ∀ x ∈ res.1, x.user_id = u := by
  unfold get_user_tasks at h
  intro x hx
  split at h
  · split at h
    · cases h
    · rw [Except.ok.injEq] at h
      subst h
      have h1 := List.mem_of_mem_take hx
      have h2 := List.mem_of_mem_drop h1
      have h3 := mem_sortDesc.mp h2
      have h4 := (List.mem_filter.mp h3).2
      simp only [Bool.and_eq_true, beq_iff_eq] at h4
      exact h4.1
  · rw [Except.ok.injEq] at h
    subst h
    have h1 := List.mem_of_mem_take hx
    have h2 := List.mem_of_mem_drop h1
    have h3 := mem_sortDesc.mp h2
    have h4 := (List.mem_filter.mp h3).2
    simpa using h4

end Phase2

/-- An update whose supplied title violates its bound fails with the title
`ValueError` regardless of the other fields. -/
theorem apply_update_fields_title_err (task : Phase2.Task)
    (data : Phase2.TaskUpdate) (now : Nat) (s : String)
    (hts : data.title = some s)
    (hbad : s = "" ∨ s.length < 1 ∨ s.length > 255) :
    Phase2.apply_update_fields task data now =
      Except.error "Title must be 1-255 characters" := by
  unfold Phase2.apply_update_fields
  rw [hts]
  simp only []
  rw [if_pos hbad]

/-! ### C7: toggle symmetry (single-tenant variant) -/

/-- C7: for every stored task with `completed = false`, one
`toggle_completion` call leaves `completed = true` and a second consecutive
call returns it to `completed = false`; each toggle sets `updated_at`
strictly later than the value it had before the call (given that the clock
readings at the two calls exceed, respectively, the task's prior
`updated_at` and the first call's reading).  The second conjunct states the
same through the storage layer: two consecutive `mark_complete` calls on the
stored task's id return the once- and twice-toggled task. -/
theorem toggle_symmetry :
    (∀ (t : Phase1.Task) (n1 n2 : Nat), t.completed = false →
       t.updated_at < n1 → n1 < n2 →
       (t.toggle_completion n1).completed = true ∧
       t.updated_at < (t.toggle_completion n1).updated_at ∧
       ((t.toggle_completion n1).toggle_completion n2).completed = false ∧
       (t.toggle_completion n1).updated_at <
         ((t.toggle_completion n1).toggle_completion n2).updated_at) ∧
    (∀ (st : Phase1.Store) (X : String) (t : Phase1.Task) (n1 n2 : Nat),
       (st.map Prod.fst).Nodup → (X, t) ∈ st → pyStrip X ≠ "" →
       (Phase1.mark_complete st X n1).1 =
         Except.ok (some (t.toggle_completion n1)) ∧
       (Phase1.mark_complete (Phase1.mark_complete st X n1).2 X n2).1 =
         Except.ok (some ((t.toggle_completion n1).toggle_completion n2))) := by
  constructor
  · intro t n1 n2 h0 h1 h2
    simp [Phase1.Task.toggle_completion, Phase1.Task.mark_complete,
          Phase1.Task.mark_incomplete, h0, h1, h2]
  · intro st X t n1 n2 hn hm hs
    have hspec1 := Phase1.mark_complete_spec hn hm hs n1
    have hd := Phase1.dictInsert_of_mem (v := t.toggle_completion n1) hm
    have hn2 : (((Phase1.mark_complete st X n1).2).map Prod.fst).Nodup := by
      rw [hspec1, hd, Phase1.keys_map_overwrite]
      exact hn
    have hm2 : (X, t.toggle_completion n1) ∈ (Phase1.mark_complete st X n1).2 := by
      rw [hspec1, hd]
      exact Phase1.mem_map_overwrite hm
    have hspec2 := Phase1.mark_complete_spec hn2 hm2 hs n2
    exact ⟨by rw [hspec1], by rw [hspec2]⟩

/-- Witness for C7 at a concrete task, store, and clock readings. -/
theorem toggle_symmetry_witness :
    (sampleT1.toggle_completion 1).completed = true ∧
    sampleT1.updated_at < (sampleT1.toggle_completion 1).updated_at ∧
    ((sampleT1.toggle_completion 1).toggle_completion 2).completed = false ∧
    (sampleT1.toggle_completion 1).updated_at <
      ((sampleT1.toggle_completion 1).toggle_completion 2).updated_at ∧
    (Phase1.mark_complete storeB "ab" 1).1 =
      Except.ok (some ((mkT "ab").toggle_completion 1)) ∧
    (Phase1.mark_complete (Phase1.mark_complete storeB "ab" 1).2 "ab" 2).1 =
      Except.ok (some (((mkT "ab").toggle_completion 1).toggle_completion 2)) := by
  have h1 := toggle_symmetry.1 sampleT1 1 2 rfl (by decide) (by decide)
  have h2 := toggle_symmetry.2 storeB "ab" (mkT "ab") 1 2 (by decide)
    (by decide) (by decide)
  exact ⟨h1.1, h1.2.1, h1.2.2.1, h1.2.2.2, h2.1, h2.2⟩

/-! ### C6: frame condition on mutation -/

/-- C6: in both variants, a successful update changes only the supplied
fields (omitted fields keep their prior values), always refreshes
`updated_at` to the clock reading of the call, and never changes `id`,
`owner`/`user_id`, or `created_at`; the single-tenant toggle likewise changes
only `completed` and `updated_at`. -/
theorem update_frame :
    (∀ (t : Phase1.Task) (title description : Option String) (now : Nat)
       (t2 : Phase1.Task), t.update title description now = Except.ok t2 →
       t2.id = t.id ∧ t2.created_at = t.created_at ∧
       t2.completed = t.completed ∧ t2.updated_at = now ∧
       (title = none → t2.title = t.title) ∧
       (description = none → t2.description = t.description)) ∧
    (∀ (t : Phase1.Task) (now : Nat),
       (t.toggle_completion now).id = t.id ∧
       (t.toggle_completion now).title = t.title ∧
       (t.toggle_completion now).description = t.description ∧
       (t.toggle_completion now).created_at = t.created_at ∧
       (t.toggle_completion now).updated_at = now) ∧
    (∀ (task : Phase2.Task) (data : Phase2.TaskUpdate) (now : Nat)
       (t2 : Phase2.Task),
       Phase2.apply_update_fields task data now = Except.ok t2 →
       t2.id = task.id ∧ t2.user_id = task.user_id ∧
       t2.created_at = task.created_at ∧ t2.updated_at = now ∧
       (data.title = none → t2.title = task.title) ∧
       (data.description = none → t2.description = task.description) ∧
       (data.status = none → t2.status = task.status)) := by
  refine ⟨?_, ?_, ?_⟩
  · intro t title description now t2 h
    cases title with
    | none =>
      cases description with
      | none =>
        simp only [Phase1.Task.update, Except.ok.injEq] at h
        subst h; simp
      | some d =>
        simp only [Phase1.Task.update, Except.ok.injEq] at h
        subst h; simp
    | some s =>
      by_cases hs : s = "" ∨ pyStrip s = ""
      · simp [Phase1.Task.update, hs] at h
      · cases description with
        | none =>
          simp only [Phase1.Task.update, hs, if_false, Except.ok.injEq] at h
          subst h; simp
        | some d =>
          simp only [Phase1.Task.update, hs, if_false, Except.ok.injEq] at h
          subst h; simp
  · intro t now
    by_cases h : t.completed <;>
      simp [Phase1.Task.toggle_completion, Phase1.Task.mark_complete,
            Phase1.Task.mark_incomplete, h]
  · intro task data now t2 h
    obtain ⟨dt, dd, ds⟩ := data
    cases dt with
    | some s =>
      by_cases hs : s = "" ∨ s.length = 0 ∨ 255 < s.length
      · simp [Phase2.apply_update_fields, hs] at h
      · cases dd with
        | some d =>
          by_cases hd : 2000 < d.length
          · simp [Phase2.apply_update_fields, hs, hd] at h
          · cases ds with
            | some st =>
              cases st <;> simp [Phase2.apply_update_fields, hs, hd] at h <;>
                (subst h; simp)
            | none =>
              simp [Phase2.apply_update_fields, hs, hd] at h
              subst h; simp
        | none =>
          cases ds with
          | some st =>
            cases st <;> simp [Phase2.apply_update_fields, hs] at h <;>
              (subst h; simp)
          | none =>
            simp [Phase2.apply_update_fields, hs] at h
            subst h; simp
    | none =>
      cases dd with
      | some d =>
        by_cases hd : 2000 < d.length
        · simp [Phase2.apply_update_fields, hd] at h
        · cases ds with
          | some st =>
            cases st <;> simp [Phase2.apply_update_fields, hd] at h <;>
              (subst h; simp)
          | none =>
            simp [Phase2.apply_update_fields, hd] at h
            subst h; simp
      | none =>
        cases ds with
        | some st =>
          cases st <;> simp [Phase2.apply_update_fields] at h <;>
            (subst h; simp)
        | none =>
          simp [Phase2.apply_update_fields] at h
          subst h; simp

/-- Witness for C6 at concrete tasks, updates, and clock readings: a phase-1
update supplying only a title, and a phase-2 update supplying only a status. -/
theorem update_frame_witness :
    sampleT1upd.id = sampleT1.id ∧ sampleT1upd.created_at = sampleT1.created_at ∧
    sampleT1upd.completed = sampleT1.completed ∧ sampleT1upd.updated_at = 5 ∧
    sampleT1upd.description = sampleT1.description ∧
    sampleP2upd.id = sampleP2.id ∧ sampleP2upd.user_id = sampleP2.user_id ∧
    sampleP2upd.created_at = sampleP2.created_at ∧ sampleP2upd.updated_at = 7 ∧
    sampleP2upd.title = sampleP2.title ∧
    sampleP2upd.description = sampleP2.description := by
  have h1 : Phase1.Task.update sampleT1 (some "New") none 5 =
      Except.ok sampleT1upd := rfl
  have h2 : Phase2.apply_update_fields sampleP2
      { title := none, description := none,
        status := some Phase2.TaskStatus.completed } 7 =
      Except.ok sampleP2upd := rfl
  have hx := update_frame.1 sampleT1 (some "New") none 5 sampleT1upd h1
  have hy := update_frame.2.2 sampleP2 _ 7 sampleP2upd h2
  exact ⟨hx.1, hx.2.1, hx.2.2.1, hx.2.2.2.1, hx.2.2.2.2.2 rfl,
         hy.1, hy.2.1, hy.2.2.1, hy.2.2.2.1, hy.2.2.2.2.1 rfl,
         hy.2.2.2.2.2.1 rfl⟩

/-! ### C2: title validation -/

/-- C2 counterexample: the claim requires `create(s, ...)` to fail with a
validation error in both variants for every whitespace-only string `s`, and
accepted titles to be stored trimmed; the multi-tenant `create_task` accepts
the whitespace-only title `" "` (whose stripped form is empty, and which the
single-tenant variant rejects) and stores it verbatim, untrimmed. -/
theorem title_validation_cex :
    pyStrip " " = "" ∧
    Phase1.mkTask " " "" "id0" 0 =
      Except.error "Task title cannot be empty" ∧
    Phase2.create_task "u1" " " none Phase2.TaskStatus.pending "id0" 0 =
      Except.ok { id := "id0", user_id := "u1", title := " ",
                  description := none, status := Phase2.TaskStatus.pending,
                  created_at := 0, updated_at := 0 } :=
  ⟨rfl, rfl, rfl⟩

/-- C2 (amended): in the single-tenant variant the claim holds as stated —
`create` and `update` reject every empty or whitespace-only title with a
`ValueError`, a rejected update leaves the store unchanged, and an accepted
title is stored stripped of surrounding whitespace.  In the multi-tenant
variant, `create` and `update` reject exactly the empty title and titles
longer than 255 characters: a whitespace-only title of length 1-255 is
accepted, and every accepted title is stored verbatim, untrimmed. -/
theorem title_validation_amended :
    (∀ (s d id : String) (now : Nat), s = "" ∨ pyStrip s = "" →
       Phase1.mkTask s d id now =
         Except.error "Task title cannot be empty") ∧
    (∀ (s d id : String) (now : Nat) (t : Phase1.Task),
       Phase1.mkTask s d id now = Except.ok t → t.title = pyStrip s) ∧
    (∀ (st : Phase1.Store) (tid s : String) (d : Option String) (now : Nat)
       (t : Phase1.Task), (st.map Prod.fst).Nodup → (tid, t) ∈ st →
       pyStrip tid ≠ "" → s = "" ∨ pyStrip s = "" →
       Phase1.update_task st tid (some s) d now =
         (Except.error "Task title cannot be empty", st)) ∧
    (∀ (t : Phase1.Task) (s : String) (d : Option String) (now : Nat)
       (t2 : Phase1.Task), t.update (some s) d now = Except.ok t2 →
       t2.title = pyStrip s) ∧
    (∀ (u s id : String) (status : Phase2.TaskStatus) (now : Nat),
       s ≠ "" → s.length ≤ 255 →
       Phase2.create_task u s none status id now =
         Except.ok { id := id, user_id := u, title := s, description := none,
                     status := status, created_at := now,
                     updated_at := now }) ∧
    (∀ (task : Phase2.Task) (s : String) (now : Nat),
       s ≠ "" → s.length ≤ 255 →
       Phase2.apply_update_fields task
         { title := some s, description := none, status := none } now =
         Except.ok { task with title := s, updated_at := now }) ∧
    (∀ (u s id : String) (desc : Option String) (status : Phase2.TaskStatus)
       (now : Nat), s = "" ∨ s.length > 255 →
       Phase2.create_task u s desc status id now =
         Except.error "Title must be 1-255 characters") ∧
    (∀ (task : Phase2.Task) (data : Phase2.TaskUpdate) (now : Nat)
       (s : String), data.title = some s → s = "" ∨ s.length > 255 →
       Phase2.apply_update_fields task data now =
         Except.error "Title must be 1-255 characters") := by
  refine ⟨?_, ?_, ?_, ?_, ?_, ?_, ?_, ?_⟩
  · intro s d id now h
    simp [Phase1.mkTask, h]
  · intro s d id now t h
    by_cases hc : s = "" ∨ pyStrip s = ""
    · simp [Phase1.mkTask, hc] at h
    · simp only [Phase1.mkTask, hc, if_false, Except.ok.injEq] at h
      subst h
      rfl
  · intro st tid s d now t hn hm hs hbad
    have hf := Phase1.find_task_id_exact hs hm
    have hl := lookup_of_mem hn hm
    simp [Phase1.update_task, hf, hl, Phase1.Task.update, hbad]
  · intro t s d now t2 h
    by_cases hc : s = "" ∨ pyStrip s = ""
    · simp [Phase1.Task.update, hc] at h
    · cases d with
      | none =>
        simp only [Phase1.Task.update, hc, if_false, Except.ok.injEq] at h
        subst h
        rfl
      | some dv =>
        simp only [Phase1.Task.update, hc, if_false, Except.ok.injEq] at h
        subst h
        rfl
  · intro u s id status now hne hlen
    have hcond : ¬(s = "" ∨ s.length = 0 ∨ 255 < s.length) := by
      push_neg
      exact ⟨hne, fun h0 => hne (string_length_zero h0), hlen⟩
    have hst := status_mem status
    simp [Phase2.create_task, hcond, hst]
  · intro task s now hne hlen
    have hcond : ¬(s = "" ∨ s.length = 0 ∨ 255 < s.length) := by
      push_neg
      exact ⟨hne, fun h0 => hne (string_length_zero h0), hlen⟩
    simp [Phase2.apply_update_fields, hcond]
  · intro u s id desc status now hbad
    have hb : s = "" ∨ s.length < 1 ∨ s.length > 255 := by
      rcases hbad with h | h
      · exact Or.inl h
      · exact Or.inr (Or.inr h)
    unfold Phase2.create_task
    rw [if_pos hb]
  · intro task data now s hts hbad
    have hb : s = "" ∨ s.length < 1 ∨ s.length > 255 := by
      rcases hbad with h | h
      · exact Or.inl h
      · exact Or.inr (Or.inr h)
    exact apply_update_fields_title_err task data now s hts hb

/-- A 256-character title, exceeding the 255-character bound of the
multi-tenant variant. -/
def long256 : String := String.mk (List.replicate 256 'a')

/-- Witness for C2 (amended) at concrete inputs, including the whitespace-only
title `" "` that the multi-tenant variant accepts verbatim, and the empty and
256-character titles it rejects. -/
theorem title_validation_amended_witness :
    Phase1.mkTask " " "" "id0" 0 =
      Except.error "Task title cannot be empty" ∧
    Phase1.update_task storeA "aaaa1111" (some " ") none 1 =
      (Except.error "Task title cannot be empty", storeA) ∧
    Phase2.create_task "u1" " " none Phase2.TaskStatus.pending "id0" 0 =
      Except.ok { id := "id0", user_id := "u1", title := " ",
                  description := none, status := Phase2.TaskStatus.pending,
                  created_at := 0, updated_at := 0 } ∧
    Phase2.apply_update_fields sampleP2
      { title := some " ", description := none, status := none } 4 =
      Except.ok { sampleP2 with title := " ", updated_at := 4 } ∧
    Phase2.create_task "u1" "" none Phase2.TaskStatus.pending "id0" 0 =
      Except.error "Title must be 1-255 characters" ∧
    Phase2.create_task "u1" long256 none Phase2.TaskStatus.pending "id0" 0 =
      Except.error "Title must be 1-255 characters" ∧
    Phase2.apply_update_fields sampleP2
      { title := some "", description := none, status := none } 4 =
      Except.error "Title must be 1-255 characters" := by
  obtain ⟨h1, _, h3, _, h5, h6, h7, h8⟩ := title_validation_amended
  have h256 : long256.length = 256 := by
    show (List.replicate 256 'a').length = 256
    exact List.length_replicate 256 'a'
  have hlong : long256.length > 255 := by
    rw [h256]
    decide
  exact ⟨h1 " " "" "id0" 0 (Or.inr rfl),
         h3 storeA "aaaa1111" " " none 1 (mkT "aaaa1111") (by decide)
           (by decide) (by decide) (Or.inr rfl),
         h5 "u1" " " "id0" Phase2.TaskStatus.pending 0 (by decide) (by decide),
         h6 sampleP2 " " 4 (by decide) (by decide),
         h7 "u1" "" "id0" none Phase2.TaskStatus.pending 0 (Or.inl rfl),
         h7 "u1" long256 "id0" none Phase2.TaskStatus.pending 0
           (Or.inr hlong),
         h8 sampleP2 { title := some "", description := none, status := none }
           4 "" rfl (Or.inl rfl)⟩

/-! ### C4: prefix resolution -/

/-- C4: empty or whitespace-only input resolves to not-found; an input no
stored id starts with resolves to not-found; an input that is an exact
stored id of nobody else's prefix — or, more generally, a prefix of exactly
one stored id — resolves to that record, the same record the full id
resolves to; and an input that is a prefix of two or more stored ids (and
not itself a stored id, in which case the exact match takes precedence)
fails with the ambiguity error, an outcome distinct from not-found. -/
theorem prefix_resolution :
    (∀ (st : Phase1.Store) (s : String), pyStrip s = "" →
       Phase1.find_task_id st s = Except.ok none) ∧
    (∀ (st : Phase1.Store) (s : String), pyStrip s ≠ "" →
       (∀ p ∈ st, pyStartsWith p.1 s = false) →
       Phase1.find_task_id st s = Except.ok none) ∧
    (∀ (st : Phase1.Store) (s X Y : String) (tx ty : Phase1.Task),
       pyStrip s ≠ "" → (∀ p ∈ st, p.1 ≠ s) →
       (X, tx) ∈ st → (Y, ty) ∈ st → X ≠ Y →
       pyStartsWith X s = true → pyStartsWith Y s = true →
       Phase1.find_task_id st s =
         Except.error ("Ambiguous task ID " ++ s ++ ": matches multiple tasks")) ∧
    (∀ (st : Phase1.Store) (s X : String) (t : Phase1.Task),
       (st.map Prod.fst).Nodup → pyStrip s ≠ "" → pyStrip X ≠ "" →
       (X, t) ∈ st → pyStartsWith X s = true →
       (∀ p ∈ st, p.1 ≠ X → pyStartsWith p.1 s = false) →
       Phase1.get_task st s = Except.ok (some t) ∧
       Phase1.get_task st X = Except.ok (some t)) := by
  refine ⟨?_, ?_, ?_, ?_⟩
  · intro st s h
    simp [Phase1.find_task_id, h]
  · intro st s hs hnone
    have hnk : ∀ p ∈ st, p.1 ≠ s := by
      intro p hp hps
      have := hnone p hp
      rw [hps, pyStartsWith_self s] at this
      cases this
    have hfilter :
        (st.map Prod.fst).filter (fun id => pyStartsWith id s) = [] := by
      apply List.filter_eq_nil_iff.mpr
      intro y hy
      obtain ⟨p, hp, rfl⟩ := List.mem_map.mp hy
      simp [hnone p hp]
    rw [Phase1.find_task_id_scan hs hnk, hfilter]
  · intro st s X Y tx ty hs hnk hmX hmY hXY hpX hpY
    have hX : X ∈ (st.map Prod.fst).filter (fun id => pyStartsWith id s) :=
      List.mem_filter.mpr ⟨List.mem_map.mpr ⟨(X, tx), hmX, rfl⟩, hpX⟩
    have hY : Y ∈ (st.map Prod.fst).filter (fun id => pyStartsWith id s) :=
      List.mem_filter.mpr ⟨List.mem_map.mpr ⟨(Y, ty), hmY, rfl⟩, hpY⟩
    rw [Phase1.find_task_id_scan hs hnk]
    rcases hfe : (st.map Prod.fst).filter (fun id => pyStartsWith id s) with
      _ | ⟨a, _ | ⟨b, l⟩⟩
    · rw [hfe] at hX
      cases hX
    · rw [hfe] at hX hY
      have h1 : X = a := by simpa using hX
      have h2 : Y = a := by simpa using hY
      exact absurd (h1.trans h2.symm) hXY
    · rfl
  · intro st s X t hn hs hX hm hpX hother
    have hf := Phase1.find_task_id_unique hn hs hm hpX hother
    have hfX := Phase1.find_task_id_exact hX hm
    have hl := lookup_of_mem hn hm
    constructor
    · simp [Phase1.get_task, hf, hl]
    · simp [Phase1.get_task, hfX, hl]

/-- Witness for C4 on concrete stores: a whitespace input, an unmatched
input, an ambiguous two-match input, and a unique 4-character prefix that
resolves to the same record as the full id. -/
theorem prefix_resolution_witness :
    Phase1.find_task_id storeA " " = Except.ok none ∧
    Phase1.find_task_id storeA "zz" = Except.ok none ∧
    Phase1.find_task_id storeA "aa" =
      Except.error ("Ambiguous task ID " ++ "aa" ++ ": matches multiple tasks") ∧
    Phase1.get_task storeA "aaaa" = Except.ok (some (mkT "aaaa1111")) ∧
    Phase1.get_task storeA "aaaa1111" = Except.ok (some (mkT "aaaa1111")) := by
  obtain ⟨h1, h2, h3, h4⟩ := prefix_resolution
  refine ⟨h1 storeA " " (by decide),
          h2 storeA "zz" (by decide) (by decide),
          h3 storeA "aa" "aaaa1111" "aaab2222" (mkT "aaaa1111")
            (mkT "aaab2222") (by decide) (by decide) (by decide) (by decide)
            (by decide) (by decide) (by decide),
          ?_, ?_⟩
  · exact (h4 storeA "aaaa" "aaaa1111" (mkT "aaaa1111") (by decide) (by decide)
      (by decide) (by decide) (by decide) (by decide)).1
  · exact (h4 storeA "aaaa" "aaaa1111" (mkT "aaaa1111") (by decide) (by decide)
      (by decide) (by decide) (by decide) (by decide)).2

/-! ### C10: exact-match precedence -/

/-- C10: an input that exactly equals a stored id resolves to that record
for `get`/`update`/`toggle`/`delete` — the exact-match check precedes the
prefix scan, so no ambiguity error can arise even when the input is also a
proper prefix of other stored ids. -/
theorem exact_match_precedence (st : Phase1.Store) (s : String)
    (t : Phase1.Task) (now : Nat) (hn : (st.map Prod.fst).Nodup)
    (hm : (s, t) ∈ st) (hs : pyStrip s ≠ "") :
    Phase1.find_task_id st s = Except.ok (some s) ∧
    Phase1.get_task st s = Except.ok (some t) ∧
    (Phase1.update_task st s none none now).1 =
      Except.ok (some { t with updated_at := now }) ∧
    (Phase1.mark_complete st s now).1 =
      Except.ok (some (t.toggle_completion now)) ∧
    (Phase1.delete_task st s).1 = Except.ok true := by
  have hf := Phase1.find_task_id_exact hs hm
  have hl := lookup_of_mem hn hm
  refine ⟨hf, ?_, ?_, ?_, ?_⟩
  · simp [Phase1.get_task, hf, hl]
  · simp [Phase1.update_task, hf, hl, Phase1.Task.update]
  · simp [Phase1.mark_complete, hf, hl]
  · simp [Phase1.delete_task, hf]

/-- Witness for C10 on a store in which the resolved id "ab" is also a
proper prefix of the two other stored ids. -/
theorem exact_match_precedence_witness :
    Phase1.find_task_id storeB "ab" = Except.ok (some "ab") ∧
    Phase1.get_task storeB "ab" = Except.ok (some (mkT "ab")) ∧
    (Phase1.update_task storeB "ab" none none 3).1 =
      Except.ok (some { mkT "ab" with updated_at := 3 }) ∧
    (Phase1.mark_complete storeB "ab" 3).1 =
      Except.ok (some ((mkT "ab").toggle_completion 3)) ∧
    (Phase1.delete_task storeB "ab").1 = Except.ok true :=
  exact_match_precedence storeB "ab" (mkT "ab") 3 (by decide) (by decide)
    (by decide)

/-- A second concrete phase-2 row, owned by a different user. -/
def otherP2 : Phase2.Task :=
  { id := "cccc", user_id := "u2", title := "x", description := none,
    status := Phase2.TaskStatus.pending, created_at := 0, updated_at := 0 }

/-- A concrete two-row table with two distinct owners. -/
def dbA : Phase2.Db := [sampleP2, otherP2]

/-! ### C5: idempotent delete -/

/-- C5: deleting a stored task by its full id returns true once, removing
it; every subsequent delete with the same id returns false without error and
without touching the store, and deleting an id that never existed returns
false — in both variants.  For phase 1, the full id of a stored task is not
a proper prefix of any other stored id (UUIDs all have the same length),
which the corresponding hypotheses record. -/
theorem delete_idempotent :
    (∀ (st : Phase1.Store) (X : String) (t : Phase1.Task),
       (st.map Prod.fst).Nodup → (X, t) ∈ st → pyStrip X ≠ "" →
       (∀ p ∈ st, p.1 ≠ X → pyStartsWith p.1 X = false) →
       Phase1.delete_task st X =
         (Except.ok true, st.filter (fun p => p.1 != X)) ∧
       Phase1.delete_task (st.filter (fun p => p.1 != X)) X =
         (Except.ok false, st.filter (fun p => p.1 != X))) ∧
    (∀ (st : Phase1.Store) (X : String), pyStrip X ≠ "" →
       (∀ p ∈ st, pyStartsWith p.1 X = false) →
       Phase1.delete_task st X = (Except.ok false, st)) ∧
    (∀ (db : Phase2.Db) (t : Phase2.Task) (u : String),
       (db.map Phase2.Task.id).Nodup → t ∈ db → t.user_id = u →
       Phase2.delete_task db u t.id =
         Except.ok (true, db.filter (fun r => r.id != t.id)) ∧
       Phase2.delete_task (db.filter (fun r => r.id != t.id)) u t.id =
         Except.ok (false, db.filter (fun r => r.id != t.id))) ∧
    (∀ (db : Phase2.Db) (u tid : String), (∀ r ∈ db, r.id ≠ tid) →
       Phase2.delete_task db u tid = Except.ok (false, db)) := by
  refine ⟨?_, ?_, ?_, ?_⟩
  · intro st X t hn hm hs hnp
    constructor
    · have hf := Phase1.find_task_id_exact hs hm
      simp [Phase1.delete_task, hf]
    · have hmem2 : ∀ p ∈ st.filter (fun p => p.1 != X), p ∈ st ∧ p.1 ≠ X := by
        intro p hp
        have h := List.mem_filter.mp hp
        exact ⟨h.1, by simpa using h.2⟩
      have hnk : ∀ p ∈ st.filter (fun p => p.1 != X), p.1 ≠ X :=
        fun p hp => (hmem2 p hp).2
      have hfilter :
          ((st.filter (fun p => p.1 != X)).map Prod.fst).filter
            (fun id => pyStartsWith id X) = [] := by
        apply List.filter_eq_nil_iff.mpr
        intro y hy
        obtain ⟨p, hp, rfl⟩ := List.mem_map.mp hy
        simp [hnp p (hmem2 p hp).1 (hmem2 p hp).2]
      have hf2 := Phase1.find_task_id_scan hs hnk
      rw [hfilter] at hf2
      simp [Phase1.delete_task, hf2]
  · intro st X hs hnp
    have hnk : ∀ p ∈ st, p.1 ≠ X := by
      intro p hp hpX
      have h := hnp p hp
      rw [hpX, pyStartsWith_self X] at h
      cases h
    have hfilter :
        (st.map Prod.fst).filter (fun id => pyStartsWith id X) = [] := by
      apply List.filter_eq_nil_iff.mpr
      intro y hy
      obtain ⟨p, hp, rfl⟩ := List.mem_map.mp hy
      simp [hnp p hp]
    have hf := Phase1.find_task_id_scan hs hnk
    rw [hfilter] at hf
    simp [Phase1.delete_task, hf]
  · intro db t u hn hm hu
    subst hu
    constructor
    · have hsel := Phase2.select_self hn hm
      simp [Phase2.delete_task, hsel, Phase2.scalar_one_or_none]
    · have hne : ∀ r ∈ db.filter (fun r => r.id != t.id), r.id ≠ t.id := by
        intro r hr
        have h := (List.mem_filter.mp hr).2
        simpa using h
      have hsel2 := Phase2.select_nil_of_ne (u := t.user_id) hne
      simp [Phase2.delete_task, hsel2, Phase2.scalar_one_or_none]
  · intro db u tid h
    have hsel := Phase2.select_nil_of_ne (u := u) h
    simp [Phase2.delete_task, hsel, Phase2.scalar_one_or_none]

/-- Witness for C5 on concrete stores: first delete true, second delete
false with the store unchanged, and delete of a never-stored id false — in
both variants. -/
theorem delete_idempotent_witness :
    Phase1.delete_task storeA "aaaa1111" =
      (Except.ok true, [("aaab2222", mkT "aaab2222")]) ∧
    Phase1.delete_task [("aaab2222", mkT "aaab2222")] "aaaa1111" =
      (Except.ok false, [("aaab2222", mkT "aaab2222")]) ∧
    Phase1.delete_task storeA "zz" = (Except.ok false, storeA) ∧
    Phase2.delete_task dbA "u1" "bbbb" = Except.ok (true, [otherP2]) ∧
    Phase2.delete_task [otherP2] "u1" "bbbb" = Except.ok (false, [otherP2]) ∧
    Phase2.delete_task dbA "u1" "zz" = Except.ok (false, dbA) := by
  obtain ⟨h1, h2, h3, h4⟩ := delete_idempotent
  have ha := h1 storeA "aaaa1111" (mkT "aaaa1111") (by decide) (by decide)
    (by decide) (by decide)
  have hb := h3 dbA sampleP2 "u1" (by decide) (by decide) (by decide)
  exact ⟨ha.1, ha.2, h2 storeA "zz" (by decide) (by decide),
         hb.1, hb.2, h4 dbA "u1" "zz" (by decide)⟩

/-! ### C1: tenant isolation -/

/-- C1: a task stored under owner A is invisible to any other caller B:
`get` returns none (HTTP 404 "Task not found" at the route, not a
permission error), `update` and `delete` report not-found and leave the
table unchanged, and `list` never includes the task — even though B supplies
the task's exact full id. -/
theorem tenant_isolation (db : Phase2.Db) (t : Phase2.Task) (userB : String)
    (hn : (db.map Phase2.Task.id).Nodup) (hm : t ∈ db)
    (hu : t.user_id ≠ userB) :
    Phase2.get_task_by_id db userB t.id = Except.ok none ∧
    Phase2.get_task_route db userB t.id =
      Except.error (404, "Task not found") ∧
    (∀ (data : Phase2.TaskUpdate) (now : Nat),
       Phase2.update_task_route db userB t.id data now =
         (Except.error (404, "Task not found"), db)) ∧
    Phase2.delete_task db userB t.id = Except.ok (false, db) ∧
    Phase2.delete_task_route db userB t.id =
      (Except.error (404, "Task not found"), db) ∧
    (∀ (limit offset : Nat) (status : Option String)
       (res : List Phase2.Task × Nat),
       Phase2.get_user_tasks db userB limit offset status = Except.ok res →
       t ∉ res.1) := by
  have hsel := Phase2.select_nil_of_owner hn hm hu
  refine ⟨?_, ?_, ?_, ?_, ?_, ?_⟩
  · simp [Phase2.get_task_by_id, hsel, Phase2.scalar_one_or_none]
  · simp [Phase2.get_task_route, Phase2.get_task_by_id, hsel,
          Phase2.scalar_one_or_none]
  · intro data now
    simp [Phase2.update_task_route, hsel, Phase2.scalar_one_or_none]
  · simp [Phase2.delete_task, hsel, Phase2.scalar_one_or_none]
  · simp [Phase2.delete_task_route, Phase2.delete_task, hsel,
          Phase2.scalar_one_or_none]
  · intro limit offset status res hres hmem
    exact hu (Phase2.get_user_tasks_owner hres t hmem)

/-- Witness for C1: user "u2" cannot see, update, delete, or list user
"u1"'s task even with its exact id. -/
theorem tenant_isolation_witness :
    Phase2.get_task_by_id dbA "u2" "bbbb" = Except.ok none ∧
    Phase2.get_task_route dbA "u2" "bbbb" =
      Except.error (404, "Task not found") ∧
    Phase2.update_task_route dbA "u2" "bbbb"
      { title := some "hack", description := none, status := none } 9 =
      (Except.error (404, "Task not found"), dbA) ∧
    Phase2.delete_task dbA "u2" "bbbb" = Except.ok (false, dbA) ∧
    Phase2.delete_task_route dbA "u2" "bbbb" =
      (Except.error (404, "Task not found"), dbA) ∧
    Phase2.get_user_tasks dbA "u2" 20 0 none =
      Except.ok ([otherP2], 1) ∧
    sampleP2 ∉ [otherP2] := by
  have h := tenant_isolation dbA sampleP2 "u2" (by decide) (by decide)
    (by decide)
  exact ⟨h.1, h.2.1, h.2.2.1 _ 9, h.2.2.2.1, h.2.2.2.2.1, rfl,
         h.2.2.2.2.2 20 0 none ([otherP2], 1) rfl⟩

/-! ### C3: all-or-nothing update -/

/-- An update whose supplied title (if any) is within bounds but whose
supplied description is over-long fails with the description `ValueError` —
even though the source assigns the valid title to the ORM object before
raising; the raise reaches the route handler, which rolls the session back. -/
theorem apply_update_fields_desc_err (task : Phase2.Task)
    (data : Phase2.TaskUpdate) (now : Nat) (d : String)
    (hds : data.description = some d) (hbad : d.length > 2000)
    (ht : ∀ s, data.title = some s →
      ¬(s = "" ∨ s.length < 1 ∨ s.length > 255)) :
    Phase2.apply_update_fields task data now =
      Except.error "Description cannot exceed 2000 characters" := by
  unfold Phase2.apply_update_fields
  cases hdt : data.title with
  | none =>
    simp only []
    rw [hds]
    simp only []
    rw [if_pos hbad]
  | some s =>
    simp only []
    rw [if_neg (ht s hdt)]
    simp only []
    rw [hds]
    simp only []
    rw [if_pos hbad]

/-- C3: an update call in which some supplied field violates its bound fails
with a `ValidationError` and changes no field of the stored task.  Phase 1:
a bad title leaves the store untouched (the raise precedes every
assignment).  Phase 2: a bad title, or a valid title combined with an
over-long description, makes the PATCH handler fail with HTTP 400 and roll
the session back, so the stored rows are exactly the pre-call rows — the
already-assigned title is not persisted. -/
theorem update_all_or_nothing :
    (∀ (st : Phase1.Store) (tid s : String) (d : Option String) (now : Nat)
       (t : Phase1.Task), (st.map Prod.fst).Nodup → (tid, t) ∈ st →
       pyStrip tid ≠ "" → s = "" ∨ pyStrip s = "" →
       Phase1.update_task st tid (some s) d now =
         (Except.error "Task title cannot be empty", st)) ∧
    (∀ (db : Phase2.Db) (t : Phase2.Task) (data : Phase2.TaskUpdate)
       (now : Nat) (s : String), (db.map Phase2.Task.id).Nodup → t ∈ db →
       data.title = some s → s = "" ∨ s.length < 1 ∨ s.length > 255 →
       Phase2.update_task_route db t.user_id t.id data now =
         (Except.error (400, "Title must be 1-255 characters"), db)) ∧
    (∀ (db : Phase2.Db) (t : Phase2.Task) (data : Phase2.TaskUpdate)
       (now : Nat) (d : String), (db.map Phase2.Task.id).Nodup → t ∈ db →
       data.description = some d → d.length > 2000 →
       (∀ s, data.title = some s →
          ¬(s = "" ∨ s.length < 1 ∨ s.length > 255)) →
       Phase2.update_task_route db t.user_id t.id data now =
         (Except.error (400, "Description cannot exceed 2000 characters"),
          db)) := by
  refine ⟨?_, ?_, ?_⟩
  · intro st tid s d now t hn hm hs hbad
    have hf := Phase1.find_task_id_exact hs hm
    have hl := lookup_of_mem hn hm
    simp [Phase1.update_task, hf, hl, Phase1.Task.update, hbad]
  · intro db t data now s hn hm hts hbad
    have hsel := Phase2.select_self hn hm
    have herr := apply_update_fields_title_err t data now s hts hbad
    simp [Phase2.update_task_route, hsel, Phase2.scalar_one_or_none, herr]
  · intro db t data now d hn hm hds hbad ht
    have hsel := Phase2.select_self hn hm
    have herr := apply_update_fields_desc_err t data now d hds hbad ht
    simp [Phase2.update_task_route, hsel, Phase2.scalar_one_or_none, herr]

/-- A 2001-character description, exceeding the 2000-character bound. -/
def longD : String := String.mk (List.replicate 2001 'a')

/-- An update request carrying a valid new title together with an over-long
description. -/
def dataC3 : Phase2.TaskUpdate :=
  { title := some "New", description := some longD, status := none }

/-- Witness for C3: a whitespace title leaves the phase-1 store unchanged;
a valid title plus an over-long description makes the phase-2 PATCH fail
with 400 and leaves the table unchanged (the valid title is not applied). -/
theorem update_all_or_nothing_witness :
    Phase1.update_task storeA "aaaa1111" (some " ") none 2 =
      (Except.error "Task title cannot be empty", storeA) ∧
    Phase2.update_task_route dbA "u1" "bbbb" dataC3 5 =
      (Except.error (400, "Description cannot exceed 2000 characters"),
       dbA) := by
  obtain ⟨h1, _, h3⟩ := update_all_or_nothing
  have hlen2001 : longD.length = 2001 := by
    show (List.replicate 2001 'a').length = 2001
    exact List.length_replicate 2001 'a'
  have hlen : longD.length > 2000 := by
    rw [hlen2001]
    decide
  refine ⟨h1 storeA "aaaa1111" " " none 2 (mkT "aaaa1111") (by decide)
    (by decide) (by decide) (Or.inr rfl), ?_⟩
  exact h3 dbA sampleP2 dataC3 5 longD (by decide) (by decide) rfl hlen
    (fun s hs => by
      injection hs with h
      subst h
      decide)

/-! ### C8: identity rejection -/

/-- A verifier that fails every token with a `JWTError` (bad signature,
malformed token, or expiry). -/
def verifyFail : String → Phase2.Middleware.VerifyOutcome :=
  fun _ => Phase2.Middleware.VerifyOutcome.jwtError "sig"

/-- A verifier that accepts every token but yields claims without a `sub`
entry. -/
def verifyNoSub : String → Phase2.Middleware.VerifyOutcome :=
  fun _ => Phase2.Middleware.VerifyOutcome.ok [("foo", "1")]

/-- C8 counterexample: the claim says the failure cases are indistinguishable
to the caller; in fact the middleware returns a different JSON `detail`
string for a missing header, an invalid/expired token, and a missing subject
claim, so the 401 rejections are distinguishable by response body. -/
theorem auth_uniformity_cex :
    Phase2.Middleware.dispatch verifyFail
      { path := "/api/v1/tasks", authHeader := "" } =
      Phase2.Middleware.Outcome.rejected 401
        "Invalid or missing Authorization header" ∧
    Phase2.Middleware.dispatch verifyFail
      { path := "/api/v1/tasks", authHeader := "Bearer bad" } =
      Phase2.Middleware.Outcome.rejected 401 "Invalid or expired token" ∧
    Phase2.Middleware.dispatch verifyNoSub
      { path := "/api/v1/tasks", authHeader := "Bearer t" } =
      Phase2.Middleware.Outcome.rejected 401 "Invalid token claims" ∧
    Phase2.Middleware.dispatch verifyFail
      { path := "/api/v1/tasks", authHeader := "" } ≠
      Phase2.Middleware.dispatch verifyFail
        { path := "/api/v1/tasks", authHeader := "Bearer bad" } := by
  refine ⟨rfl, rfl, rfl, ?_⟩
  decide

/-- C8 (amended): on a non-public endpoint, every failure case — missing or
malformed Authorization header, token rejected by verification (invalid
signature or expiry), unexpected verification error, and missing or empty
subject claim — is rejected with HTTP status 401 and the request is never
forwarded, so no Task Store operation executes; the rejections carry
case-specific `detail` strings, so they are distinguishable by body (only
the status is uniform). -/
theorem auth_rejection_amended
    (verify : String → Phase2.Middleware.VerifyOutcome)
    (req : Phase2.Middleware.Request)
    (hpub : req.path ∉ Phase2.Middleware.publicEndpoints) :
    (pyStartsWith req.authHeader "Bearer " = false →
       Phase2.Middleware.dispatch verify req =
         Phase2.Middleware.Outcome.rejected 401
           "Invalid or missing Authorization header") ∧
    (∀ msg, pyStartsWith req.authHeader "Bearer " = true →
       verify (pyStrip (dropChars req.authHeader 7)) =
         Phase2.Middleware.VerifyOutcome.jwtError msg →
       Phase2.Middleware.dispatch verify req =
         Phase2.Middleware.Outcome.rejected 401 "Invalid or expired token") ∧
    (∀ msg, pyStartsWith req.authHeader "Bearer " = true →
       verify (pyStrip (dropChars req.authHeader 7)) =
         Phase2.Middleware.VerifyOutcome.otherError msg →
       Phase2.Middleware.dispatch verify req =
         Phase2.Middleware.Outcome.rejected 401 "Authentication failed") ∧
    (∀ payload, pyStartsWith req.authHeader "Bearer " = true →
       verify (pyStrip (dropChars req.authHeader 7)) =
         Phase2.Middleware.VerifyOutcome.ok payload →
       payload.lookup "sub" = none ∨ payload.lookup "sub" = some "" →
       Phase2.Middleware.dispatch verify req =
         Phase2.Middleware.Outcome.rejected 401 "Invalid token claims") ∧
    (∀ s d, Phase2.Middleware.dispatch verify req =
       Phase2.Middleware.Outcome.rejected s d → s = 401) := by
  refine ⟨?_, ?_, ?_, ?_, ?_⟩
  · intro hb
    simp [Phase2.Middleware.dispatch, hpub, hb]
  · intro msg hb hv
    simp [Phase2.Middleware.dispatch, hpub, hb, hv]
  · intro msg hb hv
    simp [Phase2.Middleware.dispatch, hpub, hb, hv]
  · intro payload hb hv hsub
    rcases hsub with hsub | hsub <;>
      simp [Phase2.Middleware.dispatch, hpub, hb, hv, hsub]
  · intro s d h
    unfold Phase2.Middleware.dispatch at h
    rw [if_neg hpub] at h
    split at h
    · injection h with h1 _
      exact h1.symm
    · split at h
      · injection h with h1 _
        exact h1.symm
      · injection h with h1 _
        exact h1.symm
      · split at h
        · injection h with h1 _
          exact h1.symm
        · split at h
          · injection h with h1 _
            exact h1.symm
          · simp at h

/-- Witness for C8 (amended): the three concrete failure requests of the
counterexample all yield 401 rejections via the amended theorem. -/
theorem auth_rejection_amended_witness :
    Phase2.Middleware.dispatch verifyFail
      { path := "/api/v1/tasks", authHeader := "" } =
      Phase2.Middleware.Outcome.rejected 401
        "Invalid or missing Authorization header" ∧
    Phase2.Middleware.dispatch verifyFail
      { path := "/api/v1/tasks", authHeader := "Bearer bad" } =
      Phase2.Middleware.Outcome.rejected 401 "Invalid or expired token" ∧
    Phase2.Middleware.dispatch verifyNoSub
      { path := "/api/v1/tasks", authHeader := "Bearer t" } =
      Phase2.Middleware.Outcome.rejected 401 "Invalid token claims" := by
  have h1 := auth_rejection_amended verifyFail
    { path := "/api/v1/tasks", authHeader := "" } (by decide)
  have h2 := auth_rejection_amended verifyFail
    { path := "/api/v1/tasks", authHeader := "Bearer bad" } (by decide)
  have h3 := auth_rejection_amended verifyNoSub
    { path := "/api/v1/tasks", authHeader := "Bearer t" } (by decide)
  exact ⟨h1.1 (by decide), h2.2.1 "sig" (by decide) rfl,
         h3.2.2.2.1 [("foo", "1")] (by decide) rfl (Or.inl rfl)⟩

/-! ### C9: id uniqueness -/

/-- The task `add_task` returns carries exactly the id generated for the
call. -/
theorem add_task_id {st : Phase1.Store} {title d id : String} {now : Nat}
    {t : Phase1.Task} {st2 : Phase1.Store}
    (h : Phase1.add_task st title d id now = Except.ok (t, st2)) :
    t.id = id := by
  unfold Phase1.add_task at h
  by_cases hc : title = "" ∨ pyStrip title = ""
  · simp [Phase1.mkTask, hc] at h
  · simp only [Phase1.mkTask, hc, if_false, Except.ok.injEq,
               Prod.mk.injEq] at h
    obtain ⟨h1, _⟩ := h
    subst h1
    rfl

/-- The ids collected from the successful creates of an operation sequence
are drawn, in order, from the id supply of its create operations. -/
theorem runOps_ids_sublist (ops : List Phase1.Op) :
    ∀ st : Phase1.Store,
      List.Sublist (Phase1.runOps st ops).2 (Phase1.createIds ops) := by
  induction ops with
  | nil =>
    intro st
    simp [Phase1.runOps, Phase1.createIds]
  | cons op ops ih =>
    intro st
    cases op with
    | create title d id now =>
      simp only [Phase1.runOps, Phase1.createIds]
      cases hadd : Phase1.add_task st title d id now with
      | error e =>
        exact List.Sublist.cons id (ih st)
      | ok pr =>
        obtain ⟨t, st2⟩ := pr
        show List.Sublist (t.id :: (Phase1.runOps st2 ops).2)
          (id :: Phase1.createIds ops)
        rw [add_task_id hadd]
        exact List.Sublist.cons₂ id (ih st2)
    | del tid =>
      simp only [Phase1.runOps, Phase1.createIds]
      exact ih _

/-- C9: every task returned by `create` carries the freshly generated id of
that call, and over any sequence of create/delete operations whose generated
ids are pairwise distinct (the `uuid4` freshness assumption the source
relies on — collisions are treated as negligible, not actively prevented),
the ids returned by the successful creates are pairwise distinct, deletions
notwithstanding: an id, once assigned, is never handed out again. -/
theorem id_uniqueness :
    (∀ (st : Phase1.Store) (title d id : String) (now : Nat)
       (t : Phase1.Task) (st2 : Phase1.Store),
       Phase1.add_task st title d id now = Except.ok (t, st2) → t.id = id) ∧
    (∀ (st : Phase1.Store) (ops : List Phase1.Op),
       (Phase1.createIds ops).Nodup →
       List.Sublist (Phase1.runOps st ops).2 (Phase1.createIds ops) ∧
       ((Phase1.runOps st ops).2).Nodup) := by
  constructor
  · intro st title d id now t st2 h
    exact add_task_id h
  · intro st ops h
    exact ⟨runOps_ids_sublist ops st,
           List.Nodup.sublist (runOps_ids_sublist ops st) h⟩

/-- A concrete operation sequence: create, delete the created task, create
twice more (the third create has a whitespace title and fails). -/
def opsC9 : List Phase1.Op :=
  [Phase1.Op.create "a" "" "id1" 0, Phase1.Op.del "id1",
   Phase1.Op.create "b" "" "id2" 1, Phase1.Op.create " " "" "id3" 2]

/-- Witness for C9: running the concrete sequence from the empty store
returns the ids of the two successful creates, pairwise distinct, drawn from
the id supply — the deleted id is not reused. -/
theorem id_uniqueness_witness :
    (Phase1.runOps [] opsC9).2 = ["id1", "id2"] ∧
    ((Phase1.runOps [] opsC9).2).Nodup ∧
    List.Sublist (Phase1.runOps [] opsC9).2 (Phase1.createIds opsC9) := by
  have h := id_uniqueness.2 [] opsC9 (by decide)
  exact ⟨by decide, h.2, h.1⟩

end TodoSpec
